import Mathlib

/-!
Verification development for the gibbering-mouther audio application
(`src/app.js`, plus the earlier variant in `src/unnamed/part_000`).

The embedding models:
* the PCM/WAV encoder `bufferToWav` (app.js lines 369-415: chunked loop;
  part_000 lines 353-388: straight-line loop) over exact rationals, with
  JavaScript `DataView.setInt16` semantics (truncation toward zero, then
  wrap modulo 2^16) made explicit;
* the effect-graph gain assignment (app.js lines 173-181);
* the voice spawner `createVoice` (app.js lines 196-241) and
  `createOfflineVoice` (app.js lines 340-367);
* the orchestrator state: `stopAllSources` (app.js lines 243-252),
  `playGibberingEffect` (app.js lines 162-194) including the pending
  `setTimeout` stagger timers, and `downloadEffect` (app.js lines 258-322).

Samples are modelled as rationals: every IEEE float sample is a rational,
clamping is exact, and the product `clamp(x) * 0x7fff` of a float32 sample
with 32767 is exact in double precision (39 significand bits needed, 53
available), so the rational model agrees with the JavaScript computation
at every representable input.
-/

namespace GibberingMouther

/-! ### Byte-level primitives (JavaScript `DataView` semantics) -/

/-- Little-endian bytes stored by `view.setUint16(_, n, true)`. -/
def u16le (n : ℕ) : List ℕ := [n % 256, n / 256 % 256]

/-- Little-endian bytes stored by `view.setUint32(_, n, true)`. -/
def u32le (n : ℕ) : List ℕ :=
  [n % 256, n / 256 % 256, n / 65536 % 256, n / 16777216 % 256]

/-- Clamp of one float sample: `Math.max(-1, Math.min(1, sample))` (app.js line 402). -/
def jsClamp (x : ℚ) : ℚ := max (-1) (min 1 x)

/-- Truncation toward zero, as performed on the number argument of
`DataView.setInt16` by the ECMAScript ToInt16 conversion. -/
def ratTruncToInt (q : ℚ) : ℤ := if 0 ≤ q then ⌊q⌋ else -⌊-q⌋

/-- The 16-bit pattern stored for one float sample by
`view.setInt16(offset, int16, true)` with `int16 = Math.max(-1, Math.min(1, sample)) * 0x7fff`
(app.js lines 402-403): ToInt16 truncates toward zero and wraps modulo 2^16. -/
def sampleToInt16 (sample : ℚ) : ℕ :=
  ((ratTruncToInt (jsClamp sample * 32767) % 65536 : ℤ)).toNat

/-- The two bytes emitted for one sample (little-endian, app.js line 403). -/
def sampleBytes (sample : ℚ) : List ℕ := u16le (sampleToInt16 sample)

/-! ### Audio buffers -/

/-- A rendered multi-channel float buffer (the shape of a Web Audio
`AudioBuffer`): `length` frames per channel, `channelData ch j` is
`getChannelData(ch)[j]`. -/
structure AudioBuffer where
  numberOfChannels : ℕ
  sampleRate : ℕ
  length : ℕ
  channelData : ℕ → ℕ → ℚ

/-- Bytes of one interleaved frame `j`: the inner channel loop of the
encoder (app.js lines 400-405). -/
def frameBytes (buf : AudioBuffer) (j : ℕ) : List ℕ :=
  ((List.range buf.numberOfChannels).map
    (fun channel => sampleBytes (buf.channelData channel j))).flatten

/-! ### WAV header (app.js lines 377-390, identical in part_000 lines 361-374) -/

/-- The 44-byte WAV header written by `bufferToWav`, with
`length = buffer.length * numberOfChannels * 2` as in the source. -/
def wavHeader (buf : AudioBuffer) : List ℕ :=
  let len := buf.length * buf.numberOfChannels * 2
  [82, 73, 70, 70] ++ u32le (36 + len) ++
  [87, 65, 86, 69] ++
  [102, 109, 116, 32] ++ u32le 16 ++ u16le 1 ++
  u16le buf.numberOfChannels ++ u32le buf.sampleRate ++
  u32le (buf.sampleRate * buf.numberOfChannels * 2) ++
  u16le (buf.numberOfChannels * 2) ++ u16le 16 ++
  [100, 97, 116, 97] ++ u32le len

/-- The PCM data section written by the chunked loop of app.js lines
392-412: the outer loop advances `i` by `chunkSize = 10000`, the inner
loop writes frames `j` with `i ≤ j < min (i + 10000) buffer.length`. -/
def wavDataBytesFrom (buf : AudioBuffer) (i : ℕ) : List ℕ :=
  if _h : i < buf.length then
    ((List.range' i (min (i + 10000) buf.length - i)).map (frameBytes buf)).flatten
      ++ wavDataBytesFrom buf (i + 10000)
  else []
  termination_by buf.length - i
  decreasing_by omega

/-- The PCM data section written by the straight-line loop of
part_000 lines 377-385. -/
def wavDataBytesSimple (buf : AudioBuffer) : List ℕ :=
  ((List.range buf.length).map (frameBytes buf)).flatten

/-- The WAV byte stream produced by `bufferToWav` of app.js (header
followed by the chunked PCM data). -/
def bufferToWav (buf : AudioBuffer) : List ℕ :=
  wavHeader buf ++ wavDataBytesFrom buf 0

/-- The WAV byte stream produced by `bufferToWav` of
`src/unnamed/part_000` (header followed by the straight-line PCM data). -/
def bufferToWavSimple (buf : AudioBuffer) : List ℕ :=
  wavHeader buf ++ wavDataBytesSimple buf

/-! ### Decoding the header back -/

/-- Little-endian 16-bit read. -/
def le16 (a b : ℕ) : ℕ := a + 256 * b

/-- Little-endian 32-bit read. -/
def le32 (a b c d : ℕ) : ℕ := a + 256 * b + 65536 * c + 16777216 * d

/-- The numeric fields of a decoded canonical WAV header. -/
structure WavHeaderFields where
  riffSize : ℕ
  fmtSize : ℕ
  audioFormat : ℕ
  channels : ℕ
  sampleRate : ℕ
  byteRate : ℕ
  blockAlign : ℕ
  bitsPerSample : ℕ
  dataSize : ℕ
  deriving Repr, DecidableEq

/-- Decode the 44-byte canonical WAV header from the front of a byte
stream; `none` when the stream is too short or a magic string is wrong. -/
def decodeWavHeader (bs : List ℕ) : Option WavHeaderFields :=
  match bs with
  | r0 :: r1 :: r2 :: r3 :: sz0 :: sz1 :: sz2 :: sz3 ::
    w0 :: w1 :: w2 :: w3 :: f0 :: f1 :: f2 :: f3 ::
    fs0 :: fs1 :: fs2 :: fs3 :: af0 :: af1 :: ch0 :: ch1 ::
    sr0 :: sr1 :: sr2 :: sr3 :: br0 :: br1 :: br2 :: br3 ::
    ba0 :: ba1 :: bp0 :: bp1 ::
    d0 :: d1 :: d2 :: d3 :: ds0 :: ds1 :: ds2 :: ds3 :: _ =>
    if [r0, r1, r2, r3] = [82, 73, 70, 70] ∧
       [w0, w1, w2, w3] = [87, 65, 86, 69] ∧
       [f0, f1, f2, f3] = [102, 109, 116, 32] ∧
       [d0, d1, d2, d3] = [100, 97, 116, 97] then
      some { riffSize := le32 sz0 sz1 sz2 sz3
           , fmtSize := le32 fs0 fs1 fs2 fs3
           , audioFormat := le16 af0 af1
           , channels := le16 ch0 ch1
           , sampleRate := le32 sr0 sr1 sr2 sr3
           , byteRate := le32 br0 br1 br2 br3
           , blockAlign := le16 ba0 ba1
           , bitsPerSample := le16 bp0 bp1
           , dataSize := le32 ds0 ds1 ds2 ds3 }
    else none
  | _ => none

/-- Signed value of a little-endian 16-bit byte pair. -/
def decodeS16 (lo hi : ℕ) : ℤ :=
  if le16 lo hi < 32768 then (le16 lo hi : ℤ) else (le16 lo hi : ℤ) - 65536

/-- The signed 16-bit value carried by the two bytes the encoder emits
for one sample. -/
def emittedSampleValue (sample : ℚ) : ℤ :=
  match sampleBytes sample with
  | lo :: hi :: _ => decodeS16 lo hi
  | _ => 0

/-- JavaScript `Math.round`: rounds half toward positive infinity.  Used
only to state the specification's `round(clamp(sample,-1,1) * 32767)`
formula; the source code itself performs no rounding. -/
def jsRound (q : ℚ) : ℤ := ⌊q + 1 / 2⌋

/-! ### Configuration and voices -/

/-- The configuration snapshot (the `CONFIG` object of app.js lines 5-15). -/
structure Config where
  voiceCount : ℕ
  pitchMin : ℚ
  pitchMax : ℚ
  staggerMaxMs : ℚ
  gainMin : ℚ
  gainMax : ℚ
  effectDurationMs : ℚ
  reverbWetMix : ℚ
  loopProbability : ℚ

/-- One playback voice: playback rate, loop flag, per-voice gain, start
time and optional scheduled stop time (seconds), plus whether playback
has already ended (drives `source.stop()` failure behaviour). -/
structure Voice where
  playbackRate : ℚ
  loop : Bool
  gain : ℚ
  startTime : ℚ
  stopTime : Option ℚ
  ended : Bool

/-- The voice spawner `createVoice(dryGain, wetGain, continuous)` of
app.js lines 196-241.  The three `Math.random()` draws (pitch, loop,
gain) are passed in as `randPitch`, `randLoop`, `randGain`, each in
`[0,1)`; `currentTime` is `audioContext.currentTime`. -/
def createVoice (cfg : Config) (currentTime : ℚ) (continuous : Bool)
    (randPitch randLoop randGain : ℚ) : Voice :=
  { playbackRate := cfg.pitchMin + randPitch * (cfg.pitchMax - cfg.pitchMin)
  , loop := continuous || decide (randLoop < cfg.loopProbability)
  , gain := cfg.gainMin + randGain * (cfg.gainMax - cfg.gainMin)
  , startTime := currentTime
  , stopTime :=
      if continuous then none
      else some (currentTime + cfg.effectDurationMs / 1000)
  , ended := false }

/-- The offline voice spawner `createOfflineVoice(context, dryGain, wetGain, delay)`
of app.js lines 340-367: starts at the absolute offset `delay` and always
schedules a stop at `delay + EFFECT_DURATION_MS / 1000`. -/
def createOfflineVoice (cfg : Config) (delay : ℚ)
    (randPitch randLoop randGain : ℚ) : Voice :=
  { playbackRate := cfg.pitchMin + randPitch * (cfg.pitchMax - cfg.pitchMin)
  , loop := decide (randLoop < cfg.loopProbability)
  , gain := cfg.gainMin + randGain * (cfg.gainMax - cfg.gainMin)
  , startTime := delay
  , stopTime := some (delay + cfg.effectDurationMs / 1000)
  , ended := false }

/-! ### Effect graph (app.js lines 173-181; same assignments at lines 277-285) -/

/-- The dry/wet bus gain values assigned by the effect-graph construction:
`dryGain.gain.value = 1 - CONFIG.REVERB_WET_MIX`,
`wetGain.gain.value = CONFIG.REVERB_WET_MIX`. -/
structure EffectGraph where
  dryGainValue : ℚ
  wetGainValue : ℚ

/-- Build the dry/wet mix bus from the configuration snapshot. -/
def buildEffectGraph (cfg : Config) : EffectGraph :=
  { dryGainValue := 1 - cfg.reverbWetMix
  , wetGainValue := cfg.reverbWetMix }

/-! ### Orchestrator state and `stopAllSources` (app.js lines 243-252) -/

/-- The `source.stop()` call on one voice: a no-op error when the voice
has already ended, otherwise the voice is marked ended. -/
def sourceStop (v : Voice) : Except String Voice :=
  if v.ended then Except.error "InvalidStateError"
  else Except.ok { v with ended := true }

/-- The `forEach` body of `stopAllSources`: each voice's `stop()` is
wrapped in `try { ... } catch (e) { }`, so a failing stop is swallowed
and iteration continues (app.js lines 244-250). -/
def tryStopEach : List Voice → Except String Unit
  | [] => Except.ok ()
  | v :: rest =>
    match sourceStop v with
    | Except.ok _ => tryStopEach rest
    | Except.error _ => tryStopEach rest

/-- The `stopAllSources` function: stop every active voice (swallowing
per-voice failures), then reset `currentPlayingSources = []`.  An
uncaught error would propagate; the result records whether one escaped. -/
def stopAllSources (voices : List Voice) : Except String (List Voice) :=
  match tryStopEach voices with
  | Except.ok _ => Except.ok []
  | Except.error e => Except.error e

/-- One pending `setTimeout` stagger timer created by
`playGibberingEffect` (app.js lines 184-190): it will spawn a voice for
the session that scheduled it after `delay` seconds. -/
structure PendingSpawn where
  session : ℕ
  delay : ℚ
  deriving Repr

/-- The mutable application state touched by the orchestrator: the
recorded buffer, the active voice array `currentPlayingSources` (each
voice tagged with the `play` session that spawned it), and the pending
stagger timers. -/
structure AppState where
  recordedBuffer : Option AudioBuffer
  activeVoices : List (ℕ × Voice)
  pendingSpawns : List PendingSpawn

/-- The orchestrator `playGibberingEffect` (app.js lines 162-194) for
session `sess`: returns immediately when no recording exists; otherwise
stops all active sources (an uncaught stop error would abort the call),
then schedules `CONFIG.VOICE_COUNT` stagger timers with delays
`rand_i * STAGGER_MAX_MS / 1000` (the `i`-th draw taken from `rands`).
Pending timers of earlier sessions are not cancelled — the source keeps
no reference to them. -/
def playGibberingEffect (cfg : Config) (st : AppState) (sess : ℕ)
    (rands : List ℚ) : AppState :=
  match st.recordedBuffer with
  | none => st
  | some _ =>
    match stopAllSources (st.activeVoices.map Prod.snd) with
    | Except.error _ => st
    | Except.ok cleared =>
      { st with
        activeVoices := cleared.map (fun v => (sess, v))
        pendingSpawns := st.pendingSpawns ++
          (List.range cfg.voiceCount).map
            (fun i => ⟨sess, rands.getD i 0 * cfg.staggerMaxMs / 1000⟩) }

/-- Firing of the earliest pending stagger timer: its callback runs
`createVoice(dryGain, wetGain, true)` (app.js lines 187-189) and the new
voice is pushed onto `currentPlayingSources` (app.js line 232). -/
def fireSpawn (cfg : Config) (st : AppState) (currentTime : ℚ)
    (randPitch randLoop randGain : ℚ) : AppState :=
  match st.pendingSpawns with
  | [] => st
  | p :: rest =>
    { st with
      pendingSpawns := rest
      activeVoices := st.activeVoices ++
        [(p.session, createVoice cfg currentTime true randPitch randLoop randGain)] }

/-- The render-to-file path `downloadEffect` (app.js lines 258-322):
returns immediately with no bytes when no recording exists; otherwise
encodes the offline-rendered buffer through `bufferToWav`.  The core
state is unchanged in both cases. -/
def downloadEffect (st : AppState) (renderedBuffer : AudioBuffer) :
    AppState × Option (List ℕ) :=
  match st.recordedBuffer with
  | none => (st, none)
  | some _ => (st, some (bufferToWav renderedBuffer))

/-! ### Concrete instances used as witnesses -/

/-- A small stereo buffer of silence: 3 frames, 2 channels, 8000 Hz. -/
def demoBuffer : AudioBuffer :=
  { numberOfChannels := 2, sampleRate := 8000, length := 3
  , channelData := fun _ _ => 0 }

/-- A configuration with two voices and nontrivial stagger, reachable
through the UI sliders. -/
def cfgA : Config :=
  { voiceCount := 2, pitchMin := 1, pitchMax := 1, staggerMaxMs := 800
  , gainMin := 1, gainMax := 1, effectDurationMs := 15000
  , reverbWetMix := 1 / 2, loopProbability := 0 }

/-- A configuration with a proper pitch range `[1, 2]`. -/
def cfgB : Config :=
  { voiceCount := 1, pitchMin := 1, pitchMax := 2, staggerMaxMs := 0
  , gainMin := 3 / 10, gainMax := 1, effectDurationMs := 15000
  , reverbWetMix := 1 / 2, loopProbability := 3 / 10 }

/-- A voice that is still playing. -/
def demoVoice : Voice :=
  { playbackRate := 1, loop := true, gain := 1, startTime := 0
  , stopTime := none, ended := false }

/-- The state before any recording has been made. -/
def emptyState : AppState :=
  { recordedBuffer := none, activeVoices := [], pendingSpawns := [] }

/-- A state holding a recording and one active voice. -/
def recState : AppState :=
  { recordedBuffer := some demoBuffer, activeVoices := [(0, demoVoice)]
  , pendingSpawns := [] }

/-- The state reached from `recState` with an empty active set: play as
session 0 (two stagger timers), fire the first timer, play again as
session 1 (which stops the session-0 voice but leaves the second
session-0 timer pending), then fire the remaining session-0 timer and
one session-1 timer. -/
def overlapTrace : AppState :=
  fireSpawn cfgA
    (fireSpawn cfgA
      (playGibberingEffect cfgA
        (fireSpawn cfgA
          (playGibberingEffect cfgA
            { recordedBuffer := some demoBuffer, activeVoices := []
            , pendingSpawns := [] }
            0 [0, 1 / 2])
          0 0 0 0)
        1 [0, 0])
      (2 / 5) 0 0 0)
    (2 / 5) 0 0 0

/-! ### Helper lemmas -/

theorem le16_u16le (n : ℕ) (h : n < 65536) :
    le16 (n % 256) (n / 256 % 256) = n := by
  unfold le16; omega

theorem le32_u32le (n : ℕ) (h : n < 4294967296) :
    le32 (n % 256) (n / 256 % 256) (n / 65536 % 256) (n / 16777216 % 256) = n := by
  unfold le32; omega

theorem sampleBytes_length (x : ℚ) : (sampleBytes x).length = 2 := rfl

theorem flatten_map_length_const {α : Type} (f : α → List ℕ) (c : ℕ)
    (l : List α) (h : ∀ a ∈ l, (f a).length = c) :
    ((l.map f).flatten).length = l.length * c := by
  induction l with
  | nil => simp
  | cons a t ih =>
    simp only [List.map_cons, List.flatten_cons, List.length_append,
      List.length_cons, h a (List.mem_cons_self a t)]
    rw [ih (fun b hb => h b (List.mem_cons_of_mem a hb))]
    ring

theorem frameBytes_length (buf : AudioBuffer) (j : ℕ) :
    (frameBytes buf j).length = buf.numberOfChannels * 2 := by
  unfold frameBytes
  rw [flatten_map_length_const _ 2 _ (fun a _ => sampleBytes_length _)]
  simp

theorem tryStopEach_ok (voices : List Voice) :
    tryStopEach voices = Except.ok () := by
  induction voices with
  | nil => rfl
  | cons v rest ih =>
    by_cases h : v.ended <;> simp [tryStopEach, sourceStop, h, ih]

theorem stopAllSources_ok (voices : List Voice) :
    stopAllSources voices = Except.ok [] := by
  simp [stopAllSources, tryStopEach_ok]

theorem jsClamp_le_one (x : ℚ) : jsClamp x ≤ 1 := by
  unfold jsClamp
  rcases le_total (-1 : ℚ) (min 1 x) with h | h
  · rw [max_eq_right h]; exact min_le_left 1 x
  · rw [max_eq_left h]; norm_num

theorem neg_one_le_jsClamp (x : ℚ) : -1 ≤ jsClamp x := le_max_left _ _

theorem trunc_clamp_lower (x : ℚ) :
    -32767 ≤ ratTruncToInt (jsClamp x * 32767) := by
  unfold ratTruncToInt
  split_ifs with h
  · have h0 : (0 : ℤ) ≤ ⌊jsClamp x * 32767⌋ := Int.floor_nonneg.mpr h
    omega
  · have hle : -(jsClamp x * 32767) ≤ 32767 := by
      have := neg_one_le_jsClamp x
      nlinarith
    have hfl : ⌊-(jsClamp x * 32767)⌋ ≤ 32767 := by
      have h1 : (⌊-(jsClamp x * 32767)⌋ : ℚ) ≤ 32767 :=
        le_trans (Int.floor_le _) hle
      exact_mod_cast h1
    omega

theorem trunc_clamp_upper (x : ℚ) :
    ratTruncToInt (jsClamp x * 32767) ≤ 32767 := by
  unfold ratTruncToInt
  split_ifs with h
  · have hle : jsClamp x * 32767 ≤ 32767 := by
      have := jsClamp_le_one x
      nlinarith
    have h1 : (⌊jsClamp x * 32767⌋ : ℚ) ≤ 32767 :=
      le_trans (Int.floor_le _) hle
    exact_mod_cast h1
  · have h0 : (0 : ℤ) ≤ ⌊-(jsClamp x * 32767)⌋ := by
      apply Int.floor_nonneg.mpr
      push_neg at h
      linarith
    omega

theorem emittedSampleValue_eq_trunc (x : ℚ) :
    emittedSampleValue x = ratTruncToInt (jsClamp x * 32767) := by
  have hl := trunc_clamp_lower x
  have hu := trunc_clamp_upper x
  set t := ratTruncToInt (jsClamp x * 32767) with ht
  simp only [emittedSampleValue, sampleBytes, u16le, sampleToInt16, decodeS16, le16, ← ht]
  split_ifs with h5 <;> omega

theorem wavDataBytesFrom_eq (buf : AudioBuffer) :
    ∀ n i : ℕ, buf.length - i ≤ n →
      wavDataBytesFrom buf i =
        ((List.range' i (buf.length - i)).map (frameBytes buf)).flatten := by
  intro n
  induction n with
  | zero =>
    intro i h
    have hni : ¬ i < buf.length := by omega
    have h0 : buf.length - i = 0 := by omega
    rw [wavDataBytesFrom, dif_neg hni, h0]
    simp
  | succ n ih =>
    intro i h
    by_cases hi : i < buf.length
    · rw [wavDataBytesFrom, dif_pos hi, ih (i + 10000) (by omega)]
      rw [← List.flatten_append, ← List.map_append]
      have hr : List.range' (i + 10000) (buf.length - (i + 10000)) =
          List.range' (i + (min (i + 10000) buf.length - i))
            (buf.length - (i + 10000)) := by
        rcases le_or_lt (i + 10000) buf.length with hc | hc
        · have he : i + (min (i + 10000) buf.length - i) = i + 10000 := by omega
          rw [he]
        · have h0 : buf.length - (i + 10000) = 0 := by omega
          simp [h0]
      rw [hr, List.range'_append_1]
      have harg : buf.length - (i + 10000) + (min (i + 10000) buf.length - i) =
          buf.length - i := by omega
      rw [harg]
    · rw [wavDataBytesFrom, dif_neg hi]
      have h0 : buf.length - i = 0 := by omega
      simp [h0]

theorem wavData_chunked_eq_simple (buf : AudioBuffer) :
    wavDataBytesFrom buf 0 = wavDataBytesSimple buf := by
  rw [wavDataBytesFrom_eq buf buf.length 0 (by omega)]
  unfold wavDataBytesSimple
  rw [Nat.sub_zero, List.range_eq_range']

theorem wavDataBytes_length (buf : AudioBuffer) :
    (wavDataBytesFrom buf 0).length = buf.length * buf.numberOfChannels * 2 := by
  rw [wavData_chunked_eq_simple]
  unfold wavDataBytesSimple
  rw [flatten_map_length_const _ (buf.numberOfChannels * 2) _
    (fun a _ => frameBytes_length buf a)]
  rw [List.length_range]
  ring

theorem wavHeader_length (buf : AudioBuffer) : (wavHeader buf).length = 44 := by
  simp [wavHeader, u16le, u32le]

theorem bufferToWav_length (buf : AudioBuffer) :
    (bufferToWav buf).length = 44 + buf.length * buf.numberOfChannels * 2 := by
  unfold bufferToWav
  rw [List.length_append, wavHeader_length, wavDataBytes_length]

theorem decodeWavHeader_bufferToWav (buf : AudioBuffer)
    (hC : buf.numberOfChannels * 2 < 65536)
    (hR : buf.sampleRate < 4294967296)
    (hBR : buf.sampleRate * buf.numberOfChannels * 2 < 4294967296)
    (hL : 36 + buf.length * buf.numberOfChannels * 2 < 4294967296) :
    decodeWavHeader (bufferToWav buf) = some
      { riffSize := 36 + buf.length * buf.numberOfChannels * 2
      , fmtSize := 16
      , audioFormat := 1
      , channels := buf.numberOfChannels
      , sampleRate := buf.sampleRate
      , byteRate := buf.sampleRate * buf.numberOfChannels * 2
      , blockAlign := buf.numberOfChannels * 2
      , bitsPerSample := 16
      , dataSize := buf.length * buf.numberOfChannels * 2 } := by
  simp only [bufferToWav, wavHeader, u32le, u16le, List.cons_append,
    List.nil_append, List.append_assoc, decodeWavHeader]
  rw [if_pos ⟨trivial, trivial, trivial, trivial⟩]
  rw [Option.some_inj, WavHeaderFields.mk.injEq]
  simp only [le16, le32]
  refine ⟨by omega, trivial, trivial, by omega, by omega, by omega, by omega,
    trivial, by omega⟩

/-! ### Claims -/

/-- C1: for every rendered multi-channel float buffer with frame count L,
channel count C and sample rate R (within the 16/32-bit ranges of the WAV
header fields), `bufferToWav` produces exactly `44 + L*C*2` bytes, and the
44-byte header decodes to RIFF chunk size `36 + L*C*2`, PCM format tag 1,
channel count C, sample rate R, byte rate `R*C*2`, block align `C*2`,
bits-per-sample 16 and data size `L*C*2`, from which `(L, C, R)` is
recovered. -/
theorem wav_header_roundtrip (buf : AudioBuffer)
    (hpos : 0 < buf.numberOfChannels)
    (hC : buf.numberOfChannels * 2 < 65536)
    (hR : buf.sampleRate < 4294967296)
    (hBR : buf.sampleRate * buf.numberOfChannels * 2 < 4294967296)
    (hL : 36 + buf.length * buf.numberOfChannels * 2 < 4294967296) :
    (bufferToWav buf).length = 44 + buf.length * buf.numberOfChannels * 2 ∧
    ∃ f : WavHeaderFields,
      decodeWavHeader (bufferToWav buf) = some f ∧
      f.riffSize = 36 + buf.length * buf.numberOfChannels * 2 ∧
      f.audioFormat = 1 ∧
      f.channels = buf.numberOfChannels ∧
      f.sampleRate = buf.sampleRate ∧
      f.byteRate = buf.sampleRate * buf.numberOfChannels * 2 ∧
      f.blockAlign = buf.numberOfChannels * 2 ∧
      f.bitsPerSample = 16 ∧
      f.dataSize = buf.length * buf.numberOfChannels * 2 ∧
      f.dataSize / f.blockAlign = buf.length := by
  refine ⟨bufferToWav_length buf,
    _, decodeWavHeader_bufferToWav buf hC hR hBR hL,
    rfl, rfl, rfl, rfl, rfl, rfl, rfl, rfl, ?_⟩
  show buf.length * buf.numberOfChannels * 2 / (buf.numberOfChannels * 2) =
    buf.length
  rw [Nat.mul_assoc, Nat.mul_div_cancel _ (by omega)]

/-- Witness for C1 at the concrete buffer `demoBuffer` (3 frames, 2
channels, 8000 Hz). -/
theorem wav_header_roundtrip_witness :
    0 < demoBuffer.numberOfChannels ∧
    ((bufferToWav demoBuffer).length =
        44 + demoBuffer.length * demoBuffer.numberOfChannels * 2 ∧
      ∃ f : WavHeaderFields,
        decodeWavHeader (bufferToWav demoBuffer) = some f ∧
        f.riffSize = 36 + demoBuffer.length * demoBuffer.numberOfChannels * 2 ∧
        f.audioFormat = 1 ∧
        f.channels = demoBuffer.numberOfChannels ∧
        f.sampleRate = demoBuffer.sampleRate ∧
        f.byteRate = demoBuffer.sampleRate * demoBuffer.numberOfChannels * 2 ∧
        f.blockAlign = demoBuffer.numberOfChannels * 2 ∧
        f.bitsPerSample = 16 ∧
        f.dataSize = demoBuffer.length * demoBuffer.numberOfChannels * 2 ∧
        f.dataSize / f.blockAlign = demoBuffer.length) :=
  ⟨by decide, wav_header_roundtrip demoBuffer (by decide) (by decide)
    (by decide) (by decide) (by decide)⟩

/-- C3: the chunked WAV encoder of app.js (chunks of 10000 frames with a
cooperative yield between chunks) produces a byte stream identical, byte
for byte, to the straight-line encoder of part_000 on every buffer. -/
theorem wav_chunked_eq_unchunked (buf : AudioBuffer) :
    bufferToWav buf = bufferToWavSimple buf := by
  unfold bufferToWav bufferToWavSimple
  rw [wavData_chunked_eq_simple]

/-- Counterexample to C2 as stated: at the input sample `0.5` (exactly
representable as a float) the encoder emits the 16-bit value 16383,
whereas `round(clamp(0.5,-1,1) * 32767) = round(16383.5) = 16384` — the
encoder truncates toward zero, it does not round. -/
theorem wav_sample_rounding_counterexample :
    emittedSampleValue (1 / 2) = 16383 ∧
    jsRound (jsClamp (1 / 2) * 32767) = 16384 ∧
    emittedSampleValue (1 / 2) ≠ jsRound (jsClamp (1 / 2) * 32767) := by
  have h1 : emittedSampleValue (1 / 2) = 16383 := by
    norm_num [emittedSampleValue, sampleBytes, u16le, sampleToInt16,
      ratTruncToInt, jsClamp, min_def, max_def, decodeS16, le16,
      Int.toNat_ofNat]
    omega
  have h2 : jsRound (jsClamp (1 / 2) * 32767) = 16384 := by
    norm_num [jsRound, jsClamp, min_def, max_def]
  refine ⟨h1, h2, ?_⟩
  rw [h1, h2]
  decide

/-- C2 (amended): for every input float sample x, the WAV encoder emits
the little-endian 16-bit signed value obtained by truncating
`clamp(x,-1,1) * 32767` toward zero (not by rounding); in particular an
input of 1.5 encodes to the same 16-bit value as 1.0 (namely 32767), and
an input of -2.0 encodes to the same 16-bit value as -1.0. -/
theorem wav_sample_truncation :
    (∀ x : ℚ, emittedSampleValue x = ratTruncToInt (jsClamp x * 32767)) ∧
    sampleBytes (3 / 2) = sampleBytes 1 ∧
    emittedSampleValue (3 / 2) = 32767 ∧
    sampleBytes (-2) = sampleBytes (-1) := by
  refine ⟨emittedSampleValue_eq_trunc, ?_, ?_, ?_⟩ <;>
    norm_num [emittedSampleValue, sampleBytes, u16le, sampleToInt16,
      ratTruncToInt, jsClamp, min_def, max_def, decodeS16, le16,
      Int.toNat_ofNat] <;> omega

/-- C10: every 16-bit sample value emitted by the WAV encoder lies in
`[-32767, 32767]`; the value -32768 is never produced, and an input of
exactly -1.0 encodes to -32767. -/
theorem emitted_sample_range :
    (∀ x : ℚ, -32767 ≤ emittedSampleValue x ∧ emittedSampleValue x ≤ 32767 ∧
      emittedSampleValue x ≠ -32768) ∧
    emittedSampleValue (-1) = -32767 := by
  refine ⟨fun x => ?_, by
    norm_num [emittedSampleValue, sampleBytes, u16le, sampleToInt16,
      ratTruncToInt, jsClamp, min_def, max_def, decodeS16, le16,
      Int.toNat_ofNat]
    omega⟩
  have h := emittedSampleValue_eq_trunc x
  have hl := trunc_clamp_lower x
  have hu := trunc_clamp_upper x
  refine ⟨by omega, by omega, by omega⟩

/-- C4: for every reverbWetMix value in [0,1], the effect graph's dry
gain is `1 - reverbWetMix`, the wet gain is `reverbWetMix`, and the two
sum to exactly 1. -/
theorem dry_wet_gains_sum_to_one (cfg : Config)
    (h0 : 0 ≤ cfg.reverbWetMix) (h1 : cfg.reverbWetMix ≤ 1) :
    (buildEffectGraph cfg).dryGainValue = 1 - cfg.reverbWetMix ∧
    (buildEffectGraph cfg).wetGainValue = cfg.reverbWetMix ∧
    (buildEffectGraph cfg).dryGainValue + (buildEffectGraph cfg).wetGainValue = 1 := by
  refine ⟨rfl, rfl, ?_⟩
  show 1 - cfg.reverbWetMix + cfg.reverbWetMix = 1
  ring

/-- Witness for C4 at `cfgB` (`reverbWetMix = 1/2`). -/
theorem dry_wet_gains_sum_to_one_witness :
    (0 ≤ cfgB.reverbWetMix ∧ cfgB.reverbWetMix ≤ 1) ∧
    ((buildEffectGraph cfgB).dryGainValue = 1 - cfgB.reverbWetMix ∧
     (buildEffectGraph cfgB).wetGainValue = cfgB.reverbWetMix ∧
     (buildEffectGraph cfgB).dryGainValue + (buildEffectGraph cfgB).wetGainValue = 1) :=
  ⟨⟨by norm_num [cfgB], by norm_num [cfgB]⟩,
    dry_wet_gains_sum_to_one cfgB (by norm_num [cfgB]) (by norm_num [cfgB])⟩

/-- C5: with `pitchMin ≤ pitchMax` and a uniform draw `rp ∈ [0,1)`, the
sampled playback rate `pitchMin + rp * (pitchMax - pitchMin)` of every
spawned voice (live or offline) lies in `[pitchMin, pitchMax]`, and equal
bounds give a deterministic pitch. -/
theorem sampled_pitch_in_bounds (cfg : Config) (t d rp rl rg : ℚ) (cont : Bool)
    (hle : cfg.pitchMin ≤ cfg.pitchMax) (h0 : 0 ≤ rp) (h1 : rp < 1) :
    cfg.pitchMin ≤ (createVoice cfg t cont rp rl rg).playbackRate ∧
    (createVoice cfg t cont rp rl rg).playbackRate ≤ cfg.pitchMax ∧
    cfg.pitchMin ≤ (createOfflineVoice cfg d rp rl rg).playbackRate ∧
    (createOfflineVoice cfg d rp rl rg).playbackRate ≤ cfg.pitchMax ∧
    (cfg.pitchMin = cfg.pitchMax →
      (createVoice cfg t cont rp rl rg).playbackRate = cfg.pitchMin) := by
  have key_lo : cfg.pitchMin ≤ cfg.pitchMin + rp * (cfg.pitchMax - cfg.pitchMin) := by
    nlinarith
  have key_hi : cfg.pitchMin + rp * (cfg.pitchMax - cfg.pitchMin) ≤ cfg.pitchMax := by
    nlinarith
  refine ⟨key_lo, key_hi, key_lo, key_hi, fun he => ?_⟩
  show cfg.pitchMin + rp * (cfg.pitchMax - cfg.pitchMin) = cfg.pitchMin
  rw [← he]
  ring

/-- Witness for C5 at `cfgB` (`pitchMin = 1`, `pitchMax = 2`) with the
draw `rp = 1/2`. -/
theorem sampled_pitch_in_bounds_witness :
    (cfgB.pitchMin ≤ cfgB.pitchMax ∧ 0 ≤ (1 / 2 : ℚ) ∧ (1 / 2 : ℚ) < 1) ∧
    (cfgB.pitchMin ≤ (createVoice cfgB 0 false (1 / 2) 0 0).playbackRate ∧
     (createVoice cfgB 0 false (1 / 2) 0 0).playbackRate ≤ cfgB.pitchMax ∧
     cfgB.pitchMin ≤ (createOfflineVoice cfgB 0 (1 / 2) 0 0).playbackRate ∧
     (createOfflineVoice cfgB 0 (1 / 2) 0 0).playbackRate ≤ cfgB.pitchMax ∧
     (cfgB.pitchMin = cfgB.pitchMax →
       (createVoice cfgB 0 false (1 / 2) 0 0).playbackRate = cfgB.pitchMin)) :=
  ⟨⟨by norm_num [cfgB], by norm_num, by norm_num⟩,
    sampled_pitch_in_bounds cfgB 0 0 (1 / 2) 0 0 false (by norm_num [cfgB])
      (by norm_num) (by norm_num)⟩

/-- C6: `stopAllSources` never lets a voice's stop error escape and
always leaves the active set empty — calling it twice, or on an empty
set, is safe, and a voice that already ended is stopped as a swallowed
no-op (its `source.stop()` raises, but the error is caught). -/
theorem stop_idempotent_and_tolerant :
    ∀ (voices : List Voice) (v : Voice),
      stopAllSources voices = Except.ok [] ∧
      stopAllSources ([] : List Voice) = Except.ok [] ∧
      sourceStop { v with ended := true } = Except.error "InvalidStateError" ∧
      stopAllSources [{ v with ended := true }] = Except.ok [] := by
  intro voices v
  refine ⟨stopAllSources_ok voices, stopAllSources_ok [], ?_, stopAllSources_ok _⟩
  simp [sourceStop]

/-- C7: a continuous-mode voice has `loop = true` and no scheduled stop
time; a timed-mode voice (live or offline) is scheduled to stop exactly
`effectDurationMs` (converted to seconds) after its start time. -/
theorem voice_stop_scheduling (cfg : Config) (t d rp rl rg : ℚ) :
    (createVoice cfg t true rp rl rg).loop = true ∧
    (createVoice cfg t true rp rl rg).stopTime = none ∧
    (createVoice cfg t false rp rl rg).stopTime =
      some ((createVoice cfg t false rp rl rg).startTime +
        cfg.effectDurationMs / 1000) ∧
    (createOfflineVoice cfg d rp rl rg).stopTime =
      some ((createOfflineVoice cfg d rp rl rg).startTime +
        cfg.effectDurationMs / 1000) := by
  refine ⟨?_, rfl, rfl, rfl⟩
  simp [createVoice]

/-- Counterexample to C8 as stated: `playGibberingEffect` does stop all
currently active voices, but it never cancels pending `setTimeout`
stagger timers, so a timer armed by session 0 can still fire after
session 1's play call and push a session-0 voice next to session-1
voices.  In the concrete trace `overlapTrace` (play session 0, fire one
timer, play session 1, fire the leftover session-0 timer and one
session-1 timer) the active set ends up holding one voice of each
session. -/
theorem cross_session_overlap_counterexample :
    overlapTrace.activeVoices.map Prod.fst = [0, 1] := by
  rfl

/-- C8 (amended): every invocation of play with a recording present
first cancels all currently active voices, so immediately after the call
the active set is empty (no voice active at call time survives) and only
fresh stagger timers tagged with the new session are appended; however,
pending timers from earlier sessions are retained, so voices from two
different play sessions can later coexist in the active set. -/
theorem play_cancels_active_voices (cfg : Config) (st : AppState) (sess : ℕ)
    (rands : List ℚ) (b : AudioBuffer) (h : st.recordedBuffer = some b) :
    (playGibberingEffect cfg st sess rands).activeVoices = [] ∧
    ∃ newSpawns : List PendingSpawn,
      (playGibberingEffect cfg st sess rands).pendingSpawns =
        st.pendingSpawns ++ newSpawns ∧
      ∀ p ∈ newSpawns, p.session = sess := by
  simp only [playGibberingEffect, h, stopAllSources_ok]
  constructor
  · simp
  · refine ⟨_, rfl, ?_⟩
    intro p hp
    rw [List.mem_map] at hp
    obtain ⟨i, _, rfl⟩ := hp
    rfl

/-- Witness for C8 (amended) at `recState` (a recording and one active
session-0 voice), playing as session 1. -/
theorem play_cancels_active_voices_witness :
    recState.recordedBuffer = some demoBuffer ∧
    ((playGibberingEffect cfgA recState 1 [0, 0]).activeVoices = [] ∧
     ∃ newSpawns : List PendingSpawn,
       (playGibberingEffect cfgA recState 1 [0, 0]).pendingSpawns =
         recState.pendingSpawns ++ newSpawns ∧
       ∀ p ∈ newSpawns, p.session = 1) :=
  ⟨rfl, play_cancels_active_voices cfgA recState 1 [0, 0] demoBuffer rfl⟩

/-- C9: when no recorded buffer exists, `playGibberingEffect` and
`downloadEffect` return immediately as no-ops — no voices are spawned,
no bytes are emitted, and the state is unchanged. -/
theorem noop_without_recording (cfg : Config) (st : AppState) (sess : ℕ)
    (rands : List ℚ) (rbuf : AudioBuffer) (h : st.recordedBuffer = none) :
    playGibberingEffect cfg st sess rands = st ∧
    downloadEffect st rbuf = (st, none) := by
  constructor <;> simp [playGibberingEffect, downloadEffect, h]

/-- Witness for C9 at the empty initial state. -/
theorem noop_without_recording_witness :
    emptyState.recordedBuffer = none ∧
    (playGibberingEffect cfgA emptyState 0 [] = emptyState ∧
     downloadEffect emptyState demoBuffer = (emptyState, none)) :=
  ⟨rfl, noop_without_recording cfgA emptyState 0 [] demoBuffer rfl⟩

end GibberingMouther
